import Mathlib

/-!
Verification development for the WhatsApp CSV sender automation core
(`waSender.js` together with its HTTP orchestration in `server.js`).

The JavaScript source is shallowly embedded: asynchronous page
interactions become explicit environments (what the DOM looks like at
each probe, whether a wait succeeds, what the clock reads), mutable
shared state becomes explicit state records threaded through step
functions, and thrown exceptions become `Except`/`Option` values.
-/

namespace WaSender

/-! ## DOM model for the click ladder (`trySendClick`)

A page element is abstracted to the two attributes the ladder consults:
its accessible label (`getAttribute('aria-label') || ''`) and whether it
is rendered (`offsetParent !== null`). -/

structure Element where
  ariaLabel : String
  visible : Bool
  deriving Repr, DecidableEq

/-- The DOM facts `trySendClick` can observe on one pass:
`direct` is `document.querySelector` restricted to the ladder's selector
strings; `sendSpanBtns` lists, for each `span[data-icon="send"]` in the
document, its `closest('button')` (none when no button ancestor);
`allButtons` is `document.querySelectorAll('button')`; `pwVisible sel`
is whether `page.locator(sel).first().isVisible()` resolves true (a
rejection is caught and counts as false); `pwClickThrows sel` is whether
the subsequent `loc.click()` throws (caught, the loop then continues). -/
structure Dom where
  direct : String → Option Element
  sendSpanBtns : List (Option Element)
  allButtons : List Element
  pwVisible : String → Bool
  pwClickThrows : String → Bool

/-- The in-page selector list of `trySendClick` strategy 1, in source order. -/
def selectors : List String :=
  ["button[aria-label=\"Send\"]",
   "button[data-testid=\"send\"]",
   "button[data-tab=\"11\"]",
   "[data-testid=\"send\"]"]

/-- The Playwright backup selector list of `trySendClick` strategy 2, in source order. -/
def pwSelectors : List String :=
  ["button[aria-label=\"Send\"]",
   "button[data-testid=\"send\"]",
   "span[data-icon=\"send\"]",
   "button span[data-icon=\"send\"]"]

/-- Which rung of the click ladder performed the click. -/
inductive Strategy where
  | direct (sel : String)
  | structural
  | ariaHeuristic
  | playwright (sel : String)
  deriving Repr, DecidableEq

/-- `true` when `s` contains `pat` as a substring (JavaScript `includes`). -/
def strContains (s pat : String) : Bool :=
  1 < (s.splitOn pat).length

/-- A `querySelector` result counts as clickable when it exists and is visible. -/
def directHit (d : Dom) (sel : String) : Bool :=
  ((d.direct sel).map Element.visible).getD false

/-- A send-icon span counts when its `closest('button')` exists and is visible. -/
def spanBtnHit (ob : Option Element) : Bool :=
  (ob.map Element.visible).getD false

/-- The aria-label heuristic: visible button whose lowercased label contains "send". -/
def ariaHit (b : Element) : Bool :=
  strContains b.ariaLabel.toLower "send" && b.visible

/-- The in-page `page.evaluate` body of `trySendClick`: direct selectors
first, then the send-icon-span structural fallback, then the aria-label
heuristic; returns which rung clicked, or none. -/
def evalClick (d : Dom) : Option Strategy :=
  match selectors.find? (directHit d) with
  | some sel => some (.direct sel)
  | none =>
    match d.sendSpanBtns.find? spanBtnHit with
    | some _ => some .structural
    | none =>
      match d.allButtons.find? ariaHit with
      | some _ => some .ariaHeuristic
      | none => none

/-- Whether the Playwright backup pass clicks via selector `sel`:
`isVisible` resolved true and `click()` did not throw (a throw is caught
and the loop continues with the next selector). -/
def pwHit (d : Dom) (sel : String) : Bool :=
  d.pwVisible sel && !(d.pwClickThrows sel)

/-- `trySendClick(page)`: the in-page ladder, then the Playwright backup
selectors. `some s` models a `true` return (clicked via rung `s`),
`none` models `false`. -/
def trySendClick (d : Dom) : Option Strategy :=
  match evalClick d with
  | some s => some s
  | none =>
    match pwSelectors.find? (pwHit d) with
    | some sel => some (.playwright sel)
    | none => none

/-! ## Deep-link URL building (`buildWhatsAppUrl`) -/

/-- Characters the ECMAScript `encodeURIComponent` leaves unescaped. -/
def uriUnescaped (c : Char) : Bool :=
  c.isAlphanum ||
    (c = '-' || c = '_' || c = '.' || c = '!' || c = '~' ||
     c = '*' || c = '\'' || c = '(' || c = ')')

/-- Uppercase hexadecimal digit for `n < 16`. -/
def hexDigit (n : Nat) : Char :=
  if n < 10 then Char.ofNat (48 + n) else Char.ofNat (55 + n)

/-- Percent-encode one byte as `%XY` with uppercase hex. -/
def percentByte (b : UInt8) : String :=
  "%" ++ String.singleton (hexDigit (b.toNat / 16)) ++
    String.singleton (hexDigit (b.toNat % 16))

/-- JavaScript `encodeURIComponent`: unescaped characters pass through,
all others are UTF-8 encoded and each byte percent-escaped. -/
def encodeURIComponent (s : String) : String :=
  s.data.foldl
    (fun acc c =>
      acc ++
        if uriUnescaped c then String.singleton c
        else ((String.singleton c).toUTF8.toList.map percentByte).foldl
          (· ++ ·) "")
    ""

/-- `buildWhatsAppUrl(phone, message)` from the source. -/
def buildWhatsAppUrl (phone message : String) : String :=
  let text := encodeURIComponent message
  "https://web.whatsapp.com/send?phone=" ++ encodeURIComponent phone ++
    "&text=" ++ text

/-- Modelled from the spec: the deep-link URL format of §6,
`https://<messaging-client-host>/send?phone=<percent-encoded digits>&text=<percent-encoded message>`. -/
def specDeepLink (host phone message : String) : String :=
  "https://" ++ host ++ "/send?phone=" ++ encodeURIComponent phone ++
    "&text=" ++ encodeURIComponent message

/-! ## Send actuator (`sendSingle`) -/

/-- One recipient row, as handed to the sender. -/
structure Row where
  phone : String
  message : String
  name : Option String := none
  deriving Repr, DecidableEq

/-- The page-interaction steps `sendSingle` performs, in order. -/
inductive Action where
  | goto (url : String)
  | waitComposer
  | sleep (ms : Nat)
  | tryClick
  | pressEnter
  deriving Repr, DecidableEq

/-- Environment for one `sendSingle` call: `composer` is the outcome of
the 60s-bounded `waitForSelector` for the message composer (`none` =
appeared in time, `some e` = the wait threw `e`); `dom` is the DOM as
observed by the click-ladder pass of each attempt. -/
structure SingleEnv where
  composer : Option String
  dom : Nat → Dom

/-- The retry loop of `sendSingle`: up to `fuel` click-ladder passes
starting at attempt index `a`, sleeping 1s after each failed pass.
Returns the trace of steps and whether some pass clicked. -/
def clickAttempts (dom : Nat → Dom) : Nat → Nat → List Action × Bool
  | 0, _ => ([], false)
  | fuel + 1, a =>
    match trySendClick (dom a) with
    | some _ => ([.tryClick], true)
    | none =>
      let rest := clickAttempts dom fuel (a + 1)
      (.tryClick :: .sleep 1000 :: rest.1, rest.2)

/-- `sendSingle(page, {phone, message})`: navigate to the deep link, wait
for the composer (throwing on timeout), settle 2s, run the click ladder
up to 5 times with 1s gaps, and fall back to pressing Enter (plus a
1.2s pause) when no pass clicked. The result is the step trace, or the
propagated error. -/
def sendSingle (env : SingleEnv) (phone message : String) :
    Except String (List Action) :=
  match env.composer with
  | some e => .error e
  | none =>
    let attempts := clickAttempts env.dom 5 0
    let pre := [Action.goto (buildWhatsAppUrl phone message),
                Action.waitComposer, Action.sleep 2000] ++ attempts.1
    if attempts.2 then .ok pre
    else .ok (pre ++ [Action.pressEnter, Action.sleep 1200])

/-- Count of Enter presses in a trace. -/
def enterCount (tr : List Action) : Nat :=
  tr.countP (fun a => a = Action.pressEnter)

/-! ## Batch runner (`sendBatch`) -/

/-- One progress event, as passed to `onProgress` (`{index, row, ok, error?}`). -/
structure SendResult where
  index : Nat
  row : Row
  ok : Bool
  error : Option String
  deriving Repr, DecidableEq

/-- Environment for one `sendBatch` call: `readyErr` is the outcome of
session setup and `waitForReady` (`none` = ready); `send i` is the
outcome of the `sendSingle` call for the recipient at index `i`
(`none` = returned normally, `some e` = threw `e`). -/
structure BatchEnv where
  readyErr : Option String
  send : Nat → Option String

/-- The per-recipient loop of `sendBatch`, starting at index `i`: each
recipient's `sendSingle` error is caught locally and converted into an
`ok = false` event; the loop always advances to the next recipient.
Returns the `onProgress` events in call order. -/
def batchLoop (env : BatchEnv) : List Row → Nat → List SendResult
  | [], _ => []
  | row :: rest, i =>
    let evt :=
      match env.send i with
      | none => { index := i, row := row, ok := true, error := none }
      | some e => { index := i, row := row, ok := false, error := some e }
    evt :: batchLoop env rest (i + 1)

/-- `sendBatch({rows, onProgress, delayMs})`: a setup/`waitForReady`
failure propagates (the session is closed by the `finally`); otherwise
the loop emits one progress event per recipient. The result is the
ordered list of `onProgress` events. -/
def sendBatch (rows : List Row) (env : BatchEnv) :
    Except String (List SendResult) :=
  match env.readyErr with
  | some e => .error e
  | none => .ok (batchLoop env rows 0)

/-! ## Monitor mode state -/

/-- The mutable `stats` object created by `startMonitor`. -/
structure Stats where
  running : Bool
  clicks : Nat
  lastClick : Option Nat
  current : Option String
  deriving Repr, DecidableEq

/-- `stats` as initialised at the top of `startMonitor`. -/
def initStats : Stats :=
  { running := true, clicks := 0, lastClick := none, current := none }

/-- One `onEvent` payload of monitor CSV mode: a per-recipient `item`
(success or failure), or the terminal `done` event. -/
inductive MonEvent where
  | item (clicked : Bool) (t : Nat) (clicks : Nat) (index : Nat)
      (row : Row) (ok : Bool) (error : Option String)
  | done (clicks : Nat)
  deriving Repr, DecidableEq

/-- The `i/total — phone` marker written to `stats.current`. -/
def csvCurrent (i n : Nat) (phone : String) : String :=
  toString (i + 1) ++ "/" ++ toString n ++ " — " ++ phone

/-! ## Monitor CSV sub-mode -/

/-- Environment for one CSV-mode iteration: `err` is the first exception
raised inside the iteration's `try` block, if any (navigation failure,
composer timeout, …) — every fallible step of the block precedes the
stats update; `doms` is the DOM at each click-ladder attempt; `now` is
`Date.now()` at the success-path stats update. -/
structure CsvIterEnv where
  err : Option String
  doms : Nat → Dom
  now : Nat

/-- The CSV-mode retry loop: up to `fuel` ladder passes from attempt
`a`, stopping at the first that clicks (`let sent = ...` loop). -/
def csvClickLoop (doms : Nat → Dom) : Nat → Nat → Bool
  | 0, _ => false
  | fuel + 1, a =>
    if (trySendClick (doms a)).isSome then true
    else csvClickLoop doms fuel (a + 1)

/-- One CSV-mode iteration body for recipient `row` at index `i` of `n`:
set `stats.current`, then either the catch path (event with `ok =
false`) or the success path (click ladder, Enter fallback when it never
clicked, `stats.clicks += 1`, `stats.lastClick = now`, event with `ok =
true`). Returns the new stats, the emitted event, and whether the Enter
fallback fired. -/
def csvIter (env : CsvIterEnv) (i n : Nat) (row : Row) (stats : Stats) :
    Stats × MonEvent × Bool :=
  let stats := { stats with current := some (csvCurrent i n row.phone) }
  match env.err with
  | some e =>
    (stats, .item false env.now stats.clicks i row false (some e), false)
  | none =>
    let sent := csvClickLoop env.doms 5 0
    let stats := { stats with clicks := stats.clicks + 1,
                              lastClick := some env.now }
    (stats, .item true env.now stats.clicks i row true none, !sent)

/-- Running state of a CSV-mode run: the shared `stats`, the number of
reads of the cooperative `stopped` flag performed so far, the events
emitted, and the number of inter-recipient `delayMs` sleeps performed. -/
structure CsvState where
  stats : Stats
  readCtr : Nat
  events : List MonEvent
  sleeps : Nat
  deriving Repr, DecidableEq

/-- State at the start of the detached CSV loop. -/
def csvInit : CsvState :=
  { stats := initStats, readCtr := 0, events := [], sleeps := 0 }

/-- The code after the CSV loop: `if (!stopped) { stats.running = false;
stats.current = 'Done'; onEvent({done...}); close() }` — one more read
of the flag, acting only when no stop was requested. -/
def csvFinale (stopAt : Nat → Bool) (st : CsvState) : CsvState :=
  if stopAt st.readCtr then { st with readCtr := st.readCtr + 1 }
  else
    { st with
      readCtr := st.readCtr + 1,
      stats := { st.stats with running := false, current := some "Done" },
      events := st.events ++ [.done st.stats.clicks] }

/-- The detached CSV loop over the remaining `rows`, current index `i`
of `n` total. The `stopped` flag is read at the loop guard (only while
rows remain — `i < rows.length` short-circuits otherwise), again before
the trailing `delayMs` sleep, and once more in the finale; `stopAt t`
is the flag's value at the `t`-th read. -/
def csvLoop (envs : Nat → CsvIterEnv) (stopAt : Nat → Bool) (n : Nat) :
    List Row → Nat → CsvState → CsvState
  | [], _, st => csvFinale stopAt st
  | row :: rest, i, st =>
    if stopAt st.readCtr then
      csvFinale stopAt { st with readCtr := st.readCtr + 1 }
    else
      let st := { st with readCtr := st.readCtr + 1 }
      let step := csvIter (envs i) i n row st.stats
      let st := { st with stats := step.1, events := st.events ++ [step.2.1] }
      let st :=
        if stopAt st.readCtr then { st with readCtr := st.readCtr + 1 }
        else { st with readCtr := st.readCtr + 1, sleeps := st.sleeps + 1 }
      csvLoop envs stopAt n rest (i + 1) st

/-- A CSV-mode run from the start of the detached loop. -/
def csvRun (envs : Nat → CsvIterEnv) (stopAt : Nat → Bool)
    (rows : List Row) : CsvState :=
  csvLoop envs stopAt rows.length rows 0 csvInit

/-- The index a per-recipient event carries (`none` for the done event). -/
def eventIndex : MonEvent → Option Nat
  | .item _ _ _ i _ _ _ => some i
  | .done _ => none

/-- Indices of the per-recipient events of a run, in emission order. -/
def itemIndices (evts : List MonEvent) : List Nat :=
  evts.filterMap eventIndex

/-- The `stop()` closure returned by `startMonitor`: sets the `stopped`
flag and `stats.running = false`, then closes the session. Its effect
on the stats object. -/
def stopStats (stats : Stats) : Stats :=
  { stats with running := false }

/-! ## Monitor watch sub-mode -/

/-- State of the watch loop between ticks: the shared stats, the local
`lastClickedAt` (initially 0), and how many `Date.now()` calls have
happened so far (the clock is an environment stream indexed by call). -/
structure WatchState where
  stats : Stats
  lastClickedAt : Nat
  clock : Nat
  deriving Repr, DecidableEq

/-- Environment of a watch-mode run: `time t` is the value returned by
the `t`-th `Date.now()` call, and `dom tick` is the DOM a ladder pass
at tick `tick` would observe. -/
structure WatchEnv where
  time : Nat → Nat
  dom : Nat → Dom

/-- Watch-loop state at loop entry (`lastClickedAt = 0`, fresh stats
with `current` set to the watching marker). -/
def watchInit : WatchState :=
  { stats := { initStats with current := some "Watching for send button…" },
    lastClickedAt := 0, clock := 0 }

/-- One tick of the watch loop: read `Date.now()`; only when more than
1500ms have passed since `lastClickedAt` attempt a single ladder pass,
and on a click bump `stats.clicks`, read `Date.now()` again into
`stats.lastClick` and `lastClickedAt`. Returns the new state and
whether a ladder pass was attempted this tick. (JavaScript `now -
lastClickedAt > 1500` agrees with truncated `Nat` subtraction: both
sides are false whenever `now < lastClickedAt`.) -/
def watchTick (env : WatchEnv) (tick : Nat) (s : WatchState) :
    WatchState × Bool :=
  let now := env.time s.clock
  let s := { s with clock := s.clock + 1 }
  if 1500 < now - s.lastClickedAt then
    if (trySendClick (env.dom tick)).isSome then
      let t2 := env.time s.clock
      ({ s with clock := s.clock + 1,
                stats := { s.stats with clicks := s.stats.clicks + 1,
                                        lastClick := some t2 },
                lastClickedAt := t2 }, true)
    else (s, true)
  else (s, false)

/-! ## Screenshot (`getScreenshot`) -/

/-- The page reference kept in the module-level `lastPage`: whether the
page has been closed, and what `page.screenshot()` would produce
(`.error` models a rejection). -/
structure PageRef where
  closed : Bool
  shot : Except String (List UInt8)

/-- The module-level `lastPage` before any session has been opened
(`let lastPage = null`). -/
def initialLastPage : Option PageRef := none

/-- `getScreenshot()`: `null` when no page is set or the page is closed;
otherwise the screenshot, with any rejection caught and turned into
`null`. `.ok none` models returning `null`; `.error` would model an
uncaught throw (which the function never produces). -/
def getScreenshot (lastPage : Option PageRef) :
    Except String (Option (List UInt8)) :=
  match lastPage with
  | none => .ok none
  | some p =>
    if p.closed then .ok none
    else
      match p.shot with
      | .ok png => .ok (some png)
      | .error _ => .ok none

/-! ## `startMonitor` and the HTTP start handler -/

/-- The handle `startMonitor` returns (`{ stats, stop }`); the stop
capability acts on the stats via `stopStats`. -/
structure MonitorHandle where
  stats : Stats
  deriving Repr, DecidableEq

/-- The background work `startMonitor` leaves running after it returns:
the CSV walk when rows were provided and non-empty, the watch loop
otherwise. -/
inductive DetachedLoop where
  | csv (rows : List Row)
  | watch
  deriving Repr, DecidableEq

/-- Which detached loop `startMonitor` spawns for the given `rows`
argument (`if (rows && rows.length > 0)`). -/
def loopFor (rows : Option (List Row)) : DetachedLoop :=
  match rows with
  | some rs => if rs.length > 0 then .csv rs else .watch
  | none => .watch

/-- Environment of one `startMonitor` call: `launch` is the outcome of
`getContext`/`newPage` (`some e` = threw), and `readyCompletes` is
whether the unbounded `waitForReady` login wait ever finishes. -/
structure StartEnv where
  launch : Option String
  readyCompletes : Bool

/-- `startMonitor({rows, delayMs, onEvent})` as observed by its caller:
`none` when the call never returns (the inline `await waitForReady`
never completes); otherwise the thrown launch error, or the events
emitted before returning (none — the loop is spawned, not awaited)
together with the returned handle and the detached loop. -/
def startMonitorModel (env : StartEnv) (rows : Option (List Row)) :
    Option (Except String (List MonEvent × MonitorHandle × DetachedLoop)) :=
  match env.launch with
  | some e => some (.error e)
  | none =>
    if env.readyCompletes then
      some (.ok ([], { stats := initStats }, loopFor rows))
    else none

/-- Server-side state around the monitor endpoints: the module-level
`monitorHandle` variable and, as an observable effect, how many
persistent browser sessions have been opened. -/
structure SrvState where
  monitorHandle : Option MonitorHandle
  sessionsOpened : Nat
  deriving Repr, DecidableEq

/-- The guard of `POST /api/monitor/start`:
`monitorHandle && monitorHandle.stats.running`. -/
def monitorRunning (st : SrvState) : Bool :=
  match st.monitorHandle with
  | some h => h.stats.running
  | none => false

/-- Responses of `POST /api/monitor/start`. -/
inductive StartResp where
  | okAlready
  | okStarted
  | badRequest
  | serverError (msg : String)
  deriving Repr, DecidableEq

/-- The parsed request body of `POST /api/monitor/start` (`valid` is
whether the zod schema accepted it). -/
structure MonitorReq where
  valid : Bool
  rows : Option (List Row)
  deriving Repr, DecidableEq

/-- `POST /api/monitor/start`: when a monitor is already running, reply
`{ok:true, already:true}` touching nothing; otherwise validate, then
await `startMonitor` (so a never-returning login wait hangs the
handler, modelled by `none`), storing the new handle and opening one
session on success. -/
def postMonitorStart (st : SrvState) (env : StartEnv) (req : MonitorReq) :
    Option (StartResp × SrvState) :=
  if monitorRunning st then some (.okAlready, st)
  else if !req.valid then some (.badRequest, st)
  else
    match startMonitorModel env req.rows with
    | none => none
    | some (.error e) => some (.serverError e, st)
    | some (.ok (_, h, _)) =>
      some (.okStarted,
        { monitorHandle := some h,
          sessionsOpened := st.sessionsOpened + 1 })

/-! ## Concrete instances used to exercise the theorems -/

/-- A DOM in which the first direct selector matches a visible element,
so the click ladder succeeds on its first rung. -/
def sendDom : Dom :=
  { direct := fun _ => some { ariaLabel := "Send", visible := true },
    sendSpanBtns := [], allButtons := [],
    pwVisible := fun _ => false, pwClickThrows := fun _ => false }

/-- A DOM with no direct selector match, no send-icon span, no labelled
button and no Playwright-visible locator: every ladder pass fails. -/
def emptyDom : Dom :=
  { direct := fun _ => none, sendSpanBtns := [], allButtons := [],
    pwVisible := fun _ => false, pwClickThrows := fun _ => false }

/-- A DOM where only the structural rung applies: no direct selector
match, but a send-icon span with a visible enclosing button. -/
def spanOnlyDom : Dom :=
  { direct := fun _ => none,
    sendSpanBtns := [some { ariaLabel := "", visible := true }],
    allButtons := [], pwVisible := fun _ => false,
    pwClickThrows := fun _ => false }

/-- Two concrete recipients. -/
def demoRows : List Row :=
  [{ phone := "919999999999", message := "hi" },
   { phone := "918888888888", message := "yo" }]

/-- A batch environment that is ready and fails exactly recipient 1. -/
def demoBatchEnv : BatchEnv :=
  { readyErr := none, send := fun j => if j = 1 then some "boom" else none }

/-- A `sendSingle` environment whose composer loads but where no ladder
pass ever clicks. -/
def demoSingleEnv : SingleEnv :=
  { composer := none, dom := fun _ => emptyDom }

/-- A CSV iteration environment that raises nothing and never clicks. -/
def demoCsvIterEnvs : Nat → CsvIterEnv :=
  fun _ => { err := none, doms := fun _ => emptyDom, now := 5 }

/-- A stop schedule that becomes (and stays) set from the second flag
read on: false at read 0, true at every later read. -/
def demoStopAt : Nat → Bool :=
  fun t => decide (1 ≤ t)

/-- A watch environment: the clock advances 100ms per `Date.now()` call
starting at 2000, and a send control is present on every tick. -/
def demoWatchEnv : WatchEnv :=
  { time := fun t => 2000 + 100 * t, dom := fun _ => sendDom }

/-- A server state holding a running monitor. -/
def runningSrvState : SrvState :=
  { monitorHandle := some { stats := initStats }, sessionsOpened := 1 }

/-- A start environment whose launch succeeds and whose login wait
completes. -/
def readyStartEnv : StartEnv :=
  { launch := none, readyCompletes := true }

/-- A start environment whose launch succeeds but whose login wait never
completes (the QR code is never scanned). -/
def neverReadyStartEnv : StartEnv :=
  { launch := none, readyCompletes := false }

/-- The trace `sendSingle` performs when the composer loads and all five
ladder passes fail: five attempts with 1s gaps, then Enter and a 1.2s
pause. -/
def enterFallbackTrace (phone message : String) : List Action :=
  [Action.goto (buildWhatsAppUrl phone message),
   Action.waitComposer, Action.sleep 2000,
   Action.tryClick, Action.sleep 1000, Action.tryClick, Action.sleep 1000,
   Action.tryClick, Action.sleep 1000, Action.tryClick, Action.sleep 1000,
   Action.tryClick, Action.sleep 1000,
   Action.pressEnter, Action.sleep 1200]

/-! ## Helper lemmas -/

theorem batchLoop_length (env : BatchEnv) (rows : List Row) (i : Nat) :
    (batchLoop env rows i).length = rows.length := by
  induction rows generalizing i with
  | nil => simp [batchLoop]
  | cons row rest ih => simp [batchLoop, ih]

theorem batchLoop_getElem (env : BatchEnv) (rows : List Row) (i j : Nat)
    (r : Row) (h : rows[j]? = some r) :
    (batchLoop env rows i)[j]? =
      some { index := i + j, row := r, ok := (env.send (i + j)).isNone,
             error := env.send (i + j) } := by
  induction rows generalizing i j with
  | nil => simp at h
  | cons row rest ih =>
    cases j with
    | zero =>
      simp only [List.getElem?_cons_zero, Option.some.injEq] at h
      subst h
      cases hs : env.send i <;> simp [batchLoop, hs, Nat.add_zero]
    | succ j' =>
      simp only [List.getElem?_cons_succ] at h
      have h2 := ih (i + 1) j' h
      have harith : i + 1 + j' = i + (j' + 1) := by omega
      rw [harith] at h2
      simpa [batchLoop] using h2

theorem csvIter_eventIndex (env : CsvIterEnv) (i n : Nat) (row : Row)
    (stats : Stats) :
    eventIndex (csvIter env i n row stats).2.1 = some i := by
  cases h : env.err <;> simp [csvIter, h, eventIndex]

theorem csvIter_running (env : CsvIterEnv) (i n : Nat) (row : Row)
    (stats : Stats) :
    (csvIter env i n row stats).1.running = stats.running := by
  cases h : env.err <;> simp [csvIter, h]

theorem csvLoop_stopped (envs : Nat → CsvIterEnv) (stopAt : Nat → Bool)
    (n : Nat) (rest : List Row) (i : Nat) (st : CsvState)
    (h : ∀ t, st.readCtr ≤ t → stopAt t = true) :
    (csvLoop envs stopAt n rest i st).events = st.events ∧
    (csvLoop envs stopAt n rest i st).sleeps = st.sleeps ∧
    (csvLoop envs stopAt n rest i st).stats = st.stats := by
  cases rest with
  | nil => simp [csvLoop, csvFinale, h st.readCtr le_rfl]
  | cons row rest' =>
    simp [csvLoop, csvFinale, h st.readCtr le_rfl,
      h (st.readCtr + 1) (Nat.le_succ _)]

theorem csvLoop_prefix (envs : Nat → CsvIterEnv) (stopAt : Nat → Bool)
    (n k : Nat)
    (hmono : ∀ a b, a ≤ b → stopAt a = true → stopAt b = true)
    (hfalse : ∀ t, t ≤ 2 * k → stopAt t = false)
    (htrue : stopAt (2 * k + 1) = true) :
    ∀ (rest : List Row) (j : Nat) (st : CsvState), j ≤ k → k < n →
      st.readCtr = 2 * j → j + rest.length = n →
      itemIndices (csvLoop envs stopAt n rest j st).events =
        itemIndices st.events ++ List.range' j (k + 1 - j) ∧
      (csvLoop envs stopAt n rest j st).events.length =
        st.events.length + (k + 1 - j) ∧
      (csvLoop envs stopAt n rest j st).sleeps = st.sleeps + (k - j) ∧
      (csvLoop envs stopAt n rest j st).stats.running = st.stats.running := by
  intro rest
  induction rest with
  | nil =>
    intro j st hj hk hctr hlen
    simp only [List.length_nil, Nat.add_zero] at hlen
    omega
  | cons row rest' ih =>
    intro j st hj hk hctr hlen
    simp only [List.length_cons] at hlen
    have hguard : stopAt st.readCtr = false := hfalse _ (by omega)
    rcases Nat.lt_or_ge j k with hjk | hjk
    · -- j < k : the trailing-sleep read is still unset; recurse.
      have htrail : stopAt (st.readCtr + 1) = false := hfalse _ (by omega)
      have hctr' : st.readCtr + 2 = 2 * (j + 1) := by omega
      have hlen' : j + 1 + rest'.length = n := by omega
      have hrec := ih (j + 1)
        { stats := (csvIter (envs j) j n row st.stats).1,
          readCtr := st.readCtr + 2,
          events := st.events ++ [(csvIter (envs j) j n row st.stats).2.1],
          sleeps := st.sleeps + 1 }
        (by omega) hk hctr' hlen'
      have hunfold :
          csvLoop envs stopAt n (row :: rest') j st =
          csvLoop envs stopAt n rest' (j + 1)
            { stats := (csvIter (envs j) j n row st.stats).1,
              readCtr := st.readCtr + 2,
              events := st.events ++ [(csvIter (envs j) j n row st.stats).2.1],
              sleeps := st.sleeps + 1 } := by
        simp [csvLoop, hguard, htrail]
      rw [hunfold]
      obtain ⟨e1, e2, e3, e4⟩ := hrec
      refine ⟨?_, ?_, ?_, ?_⟩
      · rw [e1]
        simp only [itemIndices, List.filterMap_append]
        have hidx := csvIter_eventIndex (envs j) j n row st.stats
        have hrange : k + 1 - j = (k - j) + 1 := by omega
        have hrange2 : k + 1 - (j + 1) = k - j := by omega
        simp [hidx, hrange, hrange2, List.range'_succ, itemIndices]
      · rw [e2]
        simp only [List.length_append, List.length_cons, List.length_nil]
        omega
      · rw [e3]
        show st.sleeps + 1 + (k - (j + 1)) = st.sleeps + (k - j)
        omega
      · rw [e4]
        exact csvIter_running (envs j) j n row st.stats
    · -- j = k : the stop arrives before the trailing sleep; loop exits.
      have hjeq : j = k := by omega
      subst hjeq
      have htrail : stopAt (st.readCtr + 1) = true := by
        rw [hctr]; exact htrue
      have hafter : ∀ t, st.readCtr + 2 ≤ t → stopAt t = true := by
        intro t ht
        exact hmono (2 * j + 1) t (by omega) htrue
      have hstop := csvLoop_stopped envs stopAt n rest' (j + 1)
        { stats := (csvIter (envs j) j n row st.stats).1,
          readCtr := st.readCtr + 2,
          events := st.events ++ [(csvIter (envs j) j n row st.stats).2.1],
          sleeps := st.sleeps }
        hafter
      have hunfold :
          csvLoop envs stopAt n (row :: rest') j st =
          csvLoop envs stopAt n rest' (j + 1)
            { stats := (csvIter (envs j) j n row st.stats).1,
              readCtr := st.readCtr + 2,
              events := st.events ++ [(csvIter (envs j) j n row st.stats).2.1],
              sleeps := st.sleeps } := by
        simp [csvLoop, hguard, htrail]
      rw [hunfold]
      obtain ⟨e1, e2, e3⟩ := hstop
      refine ⟨?_, ?_, ?_, ?_⟩
      · rw [e1]
        simp only [itemIndices, List.filterMap_append]
        have hidx := csvIter_eventIndex (envs j) j n row st.stats
        have hone : j + 1 - j = 1 := by omega
        simp [hidx, hone, List.range'_one, itemIndices]
      · rw [e1]
        simp only [List.length_append, List.length_cons, List.length_nil]
        omega
      · rw [e2]
        show st.sleeps = st.sleeps + (j - j)
        omega
      · rw [e3]
        exact csvIter_running (envs j) j n row st.stats

theorem clickAttempts_all_fail (dom : Nat → Dom) (fuel a : Nat)
    (h : ∀ t, a ≤ t → t < a + fuel → trySendClick (dom t) = none) :
    clickAttempts dom fuel a =
      ((List.replicate fuel [Action.tryClick, Action.sleep 1000]).flatten,
        false) := by
  induction fuel generalizing a with
  | zero => simp [clickAttempts]
  | succ f ih =>
    have h0 : trySendClick (dom a) = none := h a le_rfl (by omega)
    have hrest := ih (a + 1) (fun t ht1 ht2 => h t (by omega) (by omega))
    simp [clickAttempts, h0, hrest, List.replicate_succ]

theorem csvClickLoop_all_fail (doms : Nat → Dom) (fuel a : Nat)
    (h : ∀ t, a ≤ t → t < a + fuel → trySendClick (doms t) = none) :
    csvClickLoop doms fuel a = false := by
  induction fuel generalizing a with
  | zero => simp [csvClickLoop]
  | succ f ih =>
    have h0 : trySendClick (doms a) = none := h a le_rfl (by omega)
    simp [csvClickLoop, h0,
      ih (a + 1) (fun t ht1 ht2 => h t (by omega) (by omega))]

/-! ## Claim theorems -/

/-- C6: for every phone and message, the deep-link URL built for a
recipient is exactly the messaging client host's `/send` path with the
phone and the message as percent-encoded query parameters, i.e.
`https://web.whatsapp.com/send?phone=<enc phone>&text=<enc message>`. -/
theorem c6_deep_link_format (phone message : String) :
    buildWhatsAppUrl phone message =
      specDeepLink "web.whatsapp.com" phone message := by
  rfl

/-- C8: whenever no page is open or the last page has been closed,
`getScreenshot()` returns the defined unavailable result (`null`,
modelled `.ok none`) and does not raise an error. -/
theorem c8_screenshot_unavailable (lastPage : Option PageRef)
    (h : lastPage = none ∨ ∃ p, lastPage = some p ∧ p.closed = true) :
    getScreenshot lastPage = .ok none := by
  rcases h with h | ⟨p, hp, hc⟩
  · rw [h]; rfl
  · rw [hp]; simp [getScreenshot, hc]

/-- Witness for C8 at the initial state: before any session has ever
been opened, `getScreenshot()` returns `null` without raising. -/
theorem c8_screenshot_unavailable_witness :
    getScreenshot initialLastPage = .ok none :=
  c8_screenshot_unavailable initialLastPage (Or.inl rfl)

/-- C3: in every state where a monitor is already running, a second
start request replies with a success indicator (`already`) and leaves
the server state untouched: no second session is opened and the running
monitor's handle and stats are unchanged. -/
theorem c3_monitor_start_idempotent (st : SrvState) (env : StartEnv)
    (req : MonitorReq) (h : monitorRunning st = true) :
    postMonitorStart st env req = some (.okAlready, st) := by
  simp [postMonitorStart, h]

/-- Witness for C3: a concrete running monitor, a second start request
is a no-op success on the very same state. -/
theorem c3_monitor_start_idempotent_witness :
    postMonitorStart runningSrvState readyStartEnv
      { valid := true, rows := none } = some (.okAlready, runningSrvState) :=
  c3_monitor_start_idempotent runningSrvState readyStartEnv
    { valid := true, rows := none } rfl

/-- C9 counterexample: the claim says `startMonitor` returns its handle
immediately with the session readiness wait detached from the call; but
when the login wait never completes (`readyCompletes = false`), the
call — which `await`s `waitForReady` inline — never returns at all
(`none`), so the caller does block on session readiness. -/
theorem c9_counterexample :
    startMonitorModel neverReadyStartEnv none = none := by
  rfl

/-- C9 (amended): once session launch succeeds and the readiness wait
completes, `startMonitor` returns its handle with the recipient/watch
loop detached (no loop events are emitted before the return), so the
caller blocks on session readiness but never on the loop's progress or
completion. -/
theorem c9_loop_detached_after_ready (env : StartEnv)
    (rows : Option (List Row)) (h1 : env.launch = none)
    (h2 : env.readyCompletes = true) :
    startMonitorModel env rows =
      some (.ok ([], { stats := initStats }, loopFor rows)) := by
  simp [startMonitorModel, h1, h2]

/-- Witness for the amended C9: with a completing login wait and CSV
rows, `startMonitor` returns the fresh handle, an empty pre-return
event list, and the CSV loop as the detached work. -/
theorem c9_loop_detached_after_ready_witness :
    startMonitorModel readyStartEnv (some demoRows) =
      some (.ok ([], { stats := initStats }, .csv demoRows)) :=
  c9_loop_detached_after_ready readyStartEnv (some demoRows) rfl rfl

/-- C7: on any page state where no direct known selector matches a
visible element but some send-tagged icon span has a visible enclosing
button ancestor, a single `trySendClick` pass succeeds — and does so
via the structural fallback. -/
theorem c7_structural_fallback (d : Dom)
    (h1 : ∀ sel ∈ selectors, directHit d sel = false)
    (h2 : ∃ ob ∈ d.sendSpanBtns, spanBtnHit ob = true) :
    trySendClick d = some .structural := by
  have hfind : selectors.find? (directHit d) = none :=
    List.find?_eq_none.mpr (fun x hx => by simp [h1 x hx])
  rcases h2 with ⟨ob, hmem, hhit⟩
  have hne : d.sendSpanBtns.find? spanBtnHit ≠ none := by
    intro hnone
    exact absurd hhit (by simpa using List.find?_eq_none.mp hnone ob hmem)
  obtain ⟨r, hr⟩ := Option.ne_none_iff_exists'.mp hne
  simp [trySendClick, evalClick, hfind, hr]

/-- Witness for C7: a concrete DOM whose only hit is a send-icon span
inside a visible button; the ladder clicks via the structural rung. -/
theorem c7_structural_fallback_witness :
    trySendClick spanOnlyDom = some .structural :=
  c7_structural_fallback spanOnlyDom (fun _ _ => rfl)
    ⟨some { ariaLabel := "", visible := true },
      List.mem_singleton.mpr rfl, rfl⟩

/-- C1: for every recipient list (with a ready session), `sendBatch`
invokes `onProgress` exactly once per input recipient, in input order;
a per-recipient error yields an `ok = false` event carrying the error
text for that recipient, and the batch continues — no single
recipient's failure aborts it. -/
theorem c1_sendBatch_one_event_per_recipient (rows : List Row)
    (env : BatchEnv) (h : env.readyErr = none) :
    ∃ evts, sendBatch rows env = .ok evts ∧
      evts.length = rows.length ∧
      ∀ j r, rows[j]? = some r →
        evts[j]? = some ({ index := j, row := r,
                           ok := (env.send j).isNone,
                           error := env.send j } : SendResult) := by
  refine ⟨batchLoop env rows 0, by simp [sendBatch, h], batchLoop_length env rows 0, ?_⟩
  intro j r hj
  simpa using batchLoop_getElem env rows 0 j r hj

/-- Witness for C1: a two-recipient batch whose second recipient
throws; both recipients get exactly one event, in order. -/
theorem c1_sendBatch_one_event_per_recipient_witness :
    ∃ evts, sendBatch demoRows demoBatchEnv = .ok evts ∧
      evts.length = demoRows.length ∧
      ∀ j r, demoRows[j]? = some r →
        evts[j]? = some ({ index := j, row := r,
                           ok := (demoBatchEnv.send j).isNone,
                           error := demoBatchEnv.send j } : SendResult) :=
  c1_sendBatch_one_event_per_recipient demoRows demoBatchEnv rfl

/-- C2: for every recipient whose composer loads within the 60s bound,
if no click-ladder strategy succeeds in any of the 5 attempts (each
followed by a 1s gap), `sendSingle` presses Enter exactly once and
returns normally instead of raising. -/
theorem c2_enter_fallback (env : SingleEnv) (phone message : String)
    (hc : env.composer = none)
    (hf : ∀ a, a < 5 → trySendClick (env.dom a) = none) :
    sendSingle env phone message = .ok (enterFallbackTrace phone message) ∧
    enterCount (enterFallbackTrace phone message) = 1 := by
  have hca := clickAttempts_all_fail env.dom 5 0
    (fun t _ ht2 => hf t (by omega))
  refine ⟨?_, rfl⟩
  simp [sendSingle, hc, hca, enterFallbackTrace]

/-- Witness for C2: a concrete recipient with a loaded composer and no
discoverable send control completes without raising, having pressed
Enter exactly once. -/
theorem c2_enter_fallback_witness :
    sendSingle demoSingleEnv "919999999999" "hi" =
      .ok (enterFallbackTrace "919999999999" "hi") ∧
    enterCount (enterFallbackTrace "919999999999" "hi") = 1 :=
  c2_enter_fallback demoSingleEnv "919999999999" "hi" rfl
    (fun _ _ => rfl)

/-- C10: every CSV-mode iteration that completes without an exception
bumps `stats.clicks` by exactly one and reports `ok = true` — even
when no ladder pass succeeded and submission fell back to the Enter
key. `stats.clicks` counts successfully-processed recipients, not
confirmed send-control clicks. -/
theorem c10_csv_clicks_counts_processed (env : CsvIterEnv) (i n : Nat)
    (row : Row) (stats : Stats) (h : env.err = none) :
    (csvIter env i n row stats).1.clicks = stats.clicks + 1 ∧
    (csvIter env i n row stats).2.1 =
      MonEvent.item true env.now (stats.clicks + 1) i row true none ∧
    ((∀ a, a < 5 → trySendClick (env.doms a) = none) →
      (csvIter env i n row stats).2.2 = true) := by
  refine ⟨by simp [csvIter, h], by simp [csvIter, h], ?_⟩
  intro hf
  have hloop := csvClickLoop_all_fail env.doms 5 0
    (fun t _ ht2 => hf t (by omega))
  simp [csvIter, h, hloop]

/-- Witness for C10: a concrete iteration with no send control found:
clicks go from 0 to 1, the event reports `ok = true`, and the Enter
fallback fired. -/
theorem c10_csv_clicks_counts_processed_witness :
    (csvIter (demoCsvIterEnvs 0) 0 2 { phone := "919999999999", message := "hi" }
        initStats).1.clicks = initStats.clicks + 1 ∧
    (csvIter (demoCsvIterEnvs 0) 0 2 { phone := "919999999999", message := "hi" }
        initStats).2.1 =
      MonEvent.item true (demoCsvIterEnvs 0).now (initStats.clicks + 1) 0
        { phone := "919999999999", message := "hi" } true none ∧
    ((∀ a, a < 5 →
        trySendClick ((demoCsvIterEnvs 0).doms a) = none) →
      (csvIter (demoCsvIterEnvs 0) 0 2 { phone := "919999999999", message := "hi" }
          initStats).2.2 = true) :=
  c10_csv_clicks_counts_processed (demoCsvIterEnvs 0) 0 2
    { phone := "919999999999", message := "hi" } initStats rfl

/-- C5: in watch sub-mode a click-ladder pass is attempted on a tick
only when more than 1.5s has elapsed since the last successful click,
so two send-control appearances within 1.5s of each other produce only
one recorded click: after a successful click on one tick, a following
tick whose clock reading is within 1500ms of the recorded click time
attempts no pass and leaves `stats.clicks` at one more than before. -/
theorem c5_watch_debounce (env : WatchEnv) (s : WatchState)
    (tick1 tick2 : Nat)
    (hwin : 1500 < env.time s.clock - s.lastClickedAt)
    (happ1 : (trySendClick (env.dom tick1)).isSome = true)
    (happ2 : (trySendClick (env.dom tick2)).isSome = true)
    (hclose : env.time (s.clock + 2) - env.time (s.clock + 1) ≤ 1500) :
    (watchTick env tick2 (watchTick env tick1 s).1).2 = false ∧
    (watchTick env tick2 (watchTick env tick1 s).1).1.stats.clicks =
      s.stats.clicks + 1 := by
  have hng : ¬ (1500 < env.time (s.clock + 1 + 1) - env.time (s.clock + 1)) := by
    have : s.clock + 1 + 1 = s.clock + 2 := by omega
    rw [this]
    omega
  constructor <;> simp [watchTick, hwin, happ1, hng]

/-- Witness for C5: a clock advancing 100ms per read with a send
control present on every tick; the second tick is debounced and only
one click is recorded. -/
theorem c5_watch_debounce_witness :
    (watchTick demoWatchEnv 1 (watchTick demoWatchEnv 0 watchInit).1).2 = false ∧
    (watchTick demoWatchEnv 1 (watchTick demoWatchEnv 0 watchInit).1).1.stats.clicks =
      watchInit.stats.clicks + 1 :=
  c5_watch_debounce demoWatchEnv watchInit 0 1 (by decide) rfl rfl (by decide)

/-- C4: in monitor CSV sub-mode, if the stop flag is set after
recipient `k` has been processed but before the trailing sleep (the
first `k`-th-iteration flag reads are unset, the read guarding the
trailing sleep is set), then exactly recipients `0..k` are processed in
order (no further item and no done event), the trailing sleep is
skipped (only `k` inter-recipient sleeps happen), and — via the
`stop()` that set the flag — `stats.running` is false. -/
theorem c4_csv_stop_after_k (envs : Nat → CsvIterEnv)
    (stopAt : Nat → Bool) (rows : List Row) (k : Nat)
    (hk : k < rows.length)
    (hmono : ∀ a b, a ≤ b → stopAt a = true → stopAt b = true)
    (hfalse : ∀ t, t ≤ 2 * k → stopAt t = false)
    (htrue : stopAt (2 * k + 1) = true) :
    itemIndices (csvRun envs stopAt rows).events = List.range (k + 1) ∧
    (csvRun envs stopAt rows).events.length = k + 1 ∧
    (csvRun envs stopAt rows).sleeps = k ∧
    (stopStats (csvRun envs stopAt rows).stats).running = false := by
  obtain ⟨e1, e2, e3, e4⟩ :=
    csvLoop_prefix envs stopAt rows.length k hmono hfalse htrue rows 0
      csvInit (by omega) hk rfl (by simp)
  refine ⟨?_, ?_, ?_, rfl⟩
  · simpa [csvRun, csvInit, itemIndices, List.range_eq_range'] using e1
  · simpa [csvRun, csvInit] using e2
  · simpa [csvRun, csvInit] using e3

/-- Witness for C4 at `k = 0` over two recipients: the stop flag set
between recipient 0's processing and its trailing sleep stops the run
with exactly one processed recipient, no sleep, and `running = false`
after `stop()`. -/
theorem c4_csv_stop_after_k_witness :
    itemIndices (csvRun demoCsvIterEnvs demoStopAt demoRows).events =
      List.range (0 + 1) ∧
    (csvRun demoCsvIterEnvs demoStopAt demoRows).events.length = 0 + 1 ∧
    (csvRun demoCsvIterEnvs demoStopAt demoRows).sleeps = 0 ∧
    (stopStats (csvRun demoCsvIterEnvs demoStopAt demoRows).stats).running =
      false :=
  c4_csv_stop_after_k demoCsvIterEnvs demoStopAt demoRows 0 (by decide)
    (fun a b hab h => by
      simp only [demoStopAt, decide_eq_true_eq] at h ⊢
      omega)
    (fun t ht => by
      simp only [demoStopAt, decide_eq_false_iff_not]
      omega)
    (by decide)

end WaSender
